import Mathlib

/-!
Shallow embedding of the rpa-sap facade (src/rpa_sap/SapGui.py and
src/rpa_sap/lib/GridView.py) together with theorems checking the
natural-language specification against it.

Modelling conventions:
* A SAP GUI control reached through the COM scripting engine is modelled as a
  record of the properties the repository reads (Text, MessageType, Type,
  RowCount, ColumnCount, ColumnOrder, GetCellValue, GetColumnTitles,
  SelectedRows).  COM property reads are total functions on this record.
* `Session.findById` models `GuiSession.findById`: a COM call that either
  returns a control or raises; the raised exception text is the `String` of
  the `Except.error` branch.
* The facade state is the five public fields of the `SapGui` class.  Vendor
  side effects of COM method invocations and property puts (press, select,
  Text assignment, SelectedRows assignment, StartTransaction) happen inside
  the externally owned application and are not part of the facade state, so
  operations return the facade state unchanged next to their result;
  operations whose outcome depends on the external state after such a call
  take that state as an argument.
* Python exceptions are `Except.error` with the exception text.
-/

namespace RpaSap

/-- A SAP GUI control (a COM `CDispatch`), restricted to the properties the
repository reads.  `TypeName` stands for the COM property `Type` (a Lean
keyword). -/
structure Control where
  Text : String
  MessageType : String
  TypeName : String
  RowCount : Nat
  ColumnCount : Nat
  ColumnOrder : List String
  GetCellValue : Nat → String → String
  GetColumnTitles : String → List String
  SelectedRows : String

/-- The active GuiSession: `findById` either returns a control or raises
(with the exception text carried in the error). -/
structure Session where
  findById : String → Except String Control

/-- `StatusBar = namedtuple('StatusBar', ['text', 'type'])`
(SapGui.py line 13 and lib/common.py line 5). -/
structure StatusBar where
  text : String
  type : String
deriving DecidableEq, Repr

/-- Result shape of `gridview_to_dict` (SapGui.py lines 921-923):
`{'columns': ..., 'data': ...}`. -/
structure GridDict where
  columns : List String
  data : List (List String)
deriving DecidableEq, Repr

/-- The public fields of the `SapGui` facade (SapGui.py lines 31-37).
`active_connection` is an opaque handle index; the control-valued fields hold
the handles assigned by the activation operations. -/
structure SapGui where
  active_connection : Nat
  active_session : Session
  active_window : Option Control
  active_object : Option Control
  active_gridview : Option Control

/-- `__is_object__` (SapGui.py lines 944-949): try `findById`, `True` on
success, `False` on any exception. -/
def __is_object__ (st : SapGui) (field_id : String) : Bool :=
  match st.active_session.findById field_id with
  | Except.ok _ => true
  | Except.error _ => false

/-- `__get_object` (SapGui.py lines 939-942): raise
`Cannot find the field: {field_id}.` unless `__is_object__` holds, then
return `findById`.  The second `findById` call repeats the first on the
unchanged session, so its failure branch carries the same wrapped message. -/
def __get_object (st : SapGui) (field_id : String) : Except String Control :=
  if __is_object__ st field_id = false then
    Except.error ("Cannot find the field: " ++ field_id ++ ".")
  else
    match st.active_session.findById field_id with
    | Except.ok c => Except.ok c
    | Except.error _ => Except.error ("Cannot find the field: " ++ field_id ++ ".")

/-- `get_object` (SapGui.py lines 381-391). -/
def get_object (st : SapGui) (field_id : String) : Except String Control × SapGui :=
  (__get_object st field_id, st)

/-- `get_object_type` (SapGui.py lines 393-403): `__get_object(fid).Type`. -/
def get_object_type (st : SapGui) (field_id : String) : Except String String × SapGui :=
  (match __get_object st field_id with
   | Except.ok c => Except.ok c.TypeName
   | Except.error e => Except.error e, st)

/-- `get_text` (SapGui.py lines 483-493): `__get_object(fid).Text`. -/
def get_text (st : SapGui) (field_id : String) : Except String String × SapGui :=
  (match __get_object st field_id with
   | Except.ok c => Except.ok c.Text
   | Except.error e => Except.error e, st)

/-- `set_text` (SapGui.py lines 495-503): `__get_object(fid).Text = text`.
The property put happens inside the vendor application; the facade state is
untouched. -/
def set_text (st : SapGui) (field_id : String) (text : String) :
    Except String Unit × SapGui :=
  (match __get_object st field_id with
   | Except.ok _ => Except.ok ()
   | Except.error e => Except.error e, st)

/-- `select` (SapGui.py lines 505-512): `__get_object(fid).Select()`. -/
def select (st : SapGui) (field_id : String) : Except String Unit × SapGui :=
  (match __get_object st field_id with
   | Except.ok _ => Except.ok ()
   | Except.error e => Except.error e, st)

/-- `press_button` (SapGui.py lines 562-569): `__get_object(fid).press()`. -/
def press_button (st : SapGui) (field_id : String) : Except String Unit × SapGui :=
  (match __get_object st field_id with
   | Except.ok _ => Except.ok ()
   | Except.error e => Except.error e, st)

/-- Substring search helper, start-anchored match. -/
def listHasPre (pat l : List Char) : Bool :=
  match pat, l with
  | [], _ => true
  | _ :: _, [] => false
  | p :: ps, c :: cs => p == c && listHasPre ps cs

/-- Substring search helper, models the Python `pat in hay` string test. -/
def listHasSub (pat l : List Char) : Bool :=
  match l with
  | [] => pat.isEmpty
  | _ :: cs => listHasPre pat l || listHasSub pat cs

/-- Models the Python membership test `pat in hay` on strings. -/
def strContains (hay pat : String) : Bool :=
  listHasSub pat.toList hay.toList

/-- `check_if_object_exists` (SapGui.py lines 405-425): `findById` success
gives `True`; an exception whose text contains
`The control could not be found by id` gives `False`; any other exception is
re-raised (`raise Exception from ex`, modelled as re-raising the text). -/
def check_if_object_exists (st : SapGui) (field_id : String) :
    Except String Bool × SapGui :=
  (match st.active_session.findById field_id with
   | Except.ok _ => Except.ok true
   | Except.error ex =>
     if strContains ex "The control could not be found by id" then
       Except.ok false
     else
       Except.error ex, st)

/-- `get_status_bar_message` (SapGui.py lines 470-481):
`__get_object(f'wnd[{window_index}]/sbar')`, then
`StatusBar(status_bar.Text, status_bar.MessageType)`. -/
def get_status_bar_message (st : SapGui) (window_index : Nat) :
    Except String StatusBar × SapGui :=
  (match __get_object st ("wnd[" ++ toString window_index ++ "]/sbar") with
   | Except.ok sb => Except.ok (StatusBar.mk sb.Text sb.MessageType)
   | Except.error e => Except.error e, st)

/-- `run_transaction` (SapGui.py lines 451-462).  `StartTransaction` is a
vendor COM call whose effect on the external UI is opaque, so the embedding
takes the facade state as it stands after that call and performs the
remaining status-bar check: raise `f'{status.type} : {status.text}'` when
the message type is `E`. -/
def run_transaction (stAfter : SapGui) : Except String Unit × SapGui :=
  (match (get_status_bar_message stAfter 0).1 with
   | Except.error e => Except.error e
   | Except.ok status =>
     if status.type == "E" then
       Except.error (status.type ++ " : " ++ status.text)
     else
       Except.ok (), stAfter)

/-- The login tail of `open_new_session` (SapGui.py lines 95-99): after the
login keystrokes (subprocess launch, COM attach and keystroke sends are
vendor-side, so the embedding starts from the state after them), read the
status bar, raise `f'{status.type} : {status.text}'` on type `E`, else
`return True`. -/
def open_new_session_login_check (stAfter : SapGui) : Except String Bool × SapGui :=
  (match (get_status_bar_message stAfter 0).1 with
   | Except.error e => Except.error e
   | Except.ok status =>
     if status.type == "E" then
       Except.error (status.type ++ " : " ++ status.text)
     else
       Except.ok true, stAfter)

/-- `set_active_window` (SapGui.py lines 359-366):
`self.active_window = self.active_session.findById(f'wnd[{index}]')`;
a bare `findById`, so its exception propagates unwrapped. -/
def set_active_window (st : SapGui) (index : Nat) : Except String Unit × SapGui :=
  match st.active_session.findById ("wnd[" ++ toString index ++ "]") with
  | Except.ok w => (Except.ok (), { st with active_window := some w })
  | Except.error e => (Except.error e, st)

/-- `count_gridview_rows` (SapGui.py lines 613-624): `RowCount`. -/
def count_gridview_rows (st : SapGui) (grid_view_id : String) :
    Except String Nat × SapGui :=
  (match __get_object st grid_view_id with
   | Except.ok gv => Except.ok gv.RowCount
   | Except.error e => Except.error e, st)

/-- `count_gridview_columns` (SapGui.py lines 626-637): `ColumnCount`. -/
def count_gridview_columns (st : SapGui) (grid_view_id : String) :
    Except String Nat × SapGui :=
  (match __get_object st grid_view_id with
   | Except.ok gv => Except.ok gv.ColumnCount
   | Except.error e => Except.error e, st)

/-- `__get_gridview_column_name__` (SapGui.py lines 965-966):
`grid_view.ColumnOrder[column_index]`. -/
def __get_gridview_column_name__ (gv : Control) (column_index : Nat) : String :=
  gv.ColumnOrder.getD column_index ""

/-- `__get_gridview_column_index__` (SapGui.py lines 961-963; identical to
`GridView.__get_column_index__`, lib/GridView.py lines 335-337).  The Python
loop body is `return column_index if column_name == ... else None`, an
unconditional `return`, so the loop finishes during its first iteration:
only column 0 can ever be reported, and an empty ColumnOrder falls through
to the implicit `return None`. -/
def __get_gridview_column_index__ (gv : Control) (column_name : String) : Option Nat :=
  if gv.ColumnOrder.length = 0 then none
  else if column_name == gv.ColumnOrder.getD 0 "" then some 0
  else none

/-- `__get_gridview_cell_address_by_value__` (SapGui.py lines 968-975): for
`row_index in range(0, RowCount)` and `column_index in range(0, ColumnCount)`
append `(row_index, column_index)` whenever
`cell_value == GetCellValue(row_index, ColumnOrder[column_index])`. -/
def __get_gridview_cell_address_by_value__ (gv : Control) (cell_value : String) :
    List (Nat × Nat) :=
  (List.range gv.RowCount).flatMap (fun row_index =>
    (List.range gv.ColumnCount).filterMap (fun column_index =>
      if cell_value == gv.GetCellValue row_index (gv.ColumnOrder.getD column_index "") then
        some (row_index, column_index)
      else
        none))

/-- `get_gridview_cell_address_by_cell_value` (SapGui.py lines 841-848):
grid lookup, scan, raise
`The GridView row not found for the value: {cell_value}` when the scan is
empty, else return the scan result. -/
def get_gridview_cell_address_by_cell_value (st : SapGui) (grid_view_id : String)
    (cell_value : String) : Except String (List (Nat × Nat)) × SapGui :=
  (match __get_object st grid_view_id with
   | Except.error e => Except.error e
   | Except.ok gv =>
     let indexes := __get_gridview_cell_address_by_value__ gv cell_value
     if indexes.length = 0 then
       Except.error ("The GridView row not found for the value: " ++ cell_value)
     else
       Except.ok indexes, st)

/-- `__get_gridview_headers__` (SapGui.py lines 977-978):
`[GetColumnTitles(column_name)[0] for column_name in ColumnOrder]`. -/
def __get_gridview_headers__ (gv : Control) : List String :=
  gv.ColumnOrder.map (fun column_name => (gv.GetColumnTitles column_name).getD 0 "")

/-- `__get_gridview_body__` (SapGui.py lines 980-988): for each
`row_index in range(0, RowCount)` collect
`GetCellValue(row_index, __get_gridview_column_name__(grid_view, column_index))`
for `column_index in range(0, ColumnCount)`. -/
def __get_gridview_body__ (gv : Control) : List (List String) :=
  (List.range gv.RowCount).map (fun row_index =>
    (List.range gv.ColumnCount).map (fun column_index =>
      gv.GetCellValue row_index (__get_gridview_column_name__ gv column_index)))

/-- `gridview_to_array` (SapGui.py lines 917-919):
`[headers, *body]`. -/
def gridview_to_array (st : SapGui) (grid_view_id : String) :
    Except String (List (List String)) × SapGui :=
  (match __get_object st grid_view_id with
   | Except.error e => Except.error e
   | Except.ok gv =>
     Except.ok (__get_gridview_headers__ gv :: __get_gridview_body__ gv), st)

/-- `gridview_to_dict` (SapGui.py lines 921-923):
`{'columns': headers, 'data': body}`. -/
def gridview_to_dict (st : SapGui) (grid_view_id : String) :
    Except String GridDict × SapGui :=
  (match __get_object st grid_view_id with
   | Except.error e => Except.error e
   | Except.ok gv =>
     Except.ok (GridDict.mk (__get_gridview_headers__ gv) (__get_gridview_body__ gv)), st)

/-- Digit run to number, for the model of Python `int`. -/
def digitsToNat (cs : List Char) : Nat :=
  cs.foldl (fun acc c => acc * 10 + (c.toNat - 48)) 0

/-- Strips leading and trailing whitespace, the stripping `int(s)` does. -/
def trimChars (cs : List Char) : List Char :=
  ((cs.dropWhile Char.isWhitespace).reverse.dropWhile Char.isWhitespace).reverse

/-- Models Python `s.split(sep)` for a one-character separator: the empty
string yields one empty piece, and every separator occurrence starts a new
piece. -/
def splitOnChar (sep : Char) : List Char → List (List Char)
  | [] => [[]]
  | c :: cs =>
    match splitOnChar sep cs with
    | [] => if c == sep then [[], []] else [[c]]
    | r :: rs => if c == sep then [] :: r :: rs else (c :: r) :: rs

/-- Models Python `selected_rows.split(',')`. -/
def pySplitComma (s : String) : List String :=
  (splitOnChar ',' s.toList).map (fun cs => String.mk cs)

/-- Models the Python membership test `c in s` for a single character. -/
def pyContains (s : String) (c : Char) : Bool :=
  s.toList.contains c

/-- Models Python `int(s)` on a string: surrounding whitespace stripped, an
optional single sign followed by at least one digit; anything else raises
`ValueError`. -/
def pyInt (s : String) : Except String Int :=
  match trimChars s.toList with
  | '-' :: rest =>
    if rest ≠ [] ∧ rest.all Char.isDigit then
      Except.ok (-(digitsToNat rest : Int))
    else
      Except.error ("ValueError: invalid literal for int with base 10: " ++ s)
  | '+' :: rest =>
    if rest ≠ [] ∧ rest.all Char.isDigit then
      Except.ok (digitsToNat rest : Int)
    else
      Except.error ("ValueError: invalid literal for int with base 10: " ++ s)
  | cs =>
    if cs ≠ [] ∧ cs.all Char.isDigit then
      Except.ok (digitsToNat cs : Int)
    else
      Except.error ("ValueError: invalid literal for int with base 10: " ++ s)

/-- One iteration of the token loop of `get_selected_gridview_rows`
(SapGui.py lines 769-774).  A token containing `-` is split and its string
halves are passed to `range`, which raises TypeError before anything is
appended; otherwise the whole token goes through `int(row)`. -/
def processToken (row : String) : Except String (List Int) :=
  if pyContains row '-' then
    Except.error "TypeError: str object cannot be interpreted as an integer"
  else
    match pyInt row with
    | Except.ok i => Except.ok [i]
    | Except.error e => Except.error e

/-- The token loop of `get_selected_gridview_rows`: process the
comma-separated tokens left to right, accumulating parsed indexes, stopping
at the first raising token. -/
def collectRows : List String → List Int → Except String (List Int)
  | [], acc => Except.ok acc
  | row :: rest, acc =>
    match processToken row with
    | Except.error e => Except.error e
    | Except.ok is => collectRows rest (acc ++ is)

/-- `get_selected_gridview_rows` after the grid lookup (SapGui.py lines
764-775): `return None` on the empty string, else run the token loop on
`selected_rows.split(',')` and return the accumulated list. -/
def get_selected_rows_from_string (selected_rows : String) :
    Except String (Option (List Int)) :=
  if selected_rows == "" then
    Except.ok none
  else
    match collectRows (pySplitComma selected_rows) [] with
    | Except.error e => Except.error e
    | Except.ok rows_list => Except.ok (some rows_list)

/-- `get_selected_gridview_rows` (SapGui.py lines 754-775). -/
def get_selected_gridview_rows (st : SapGui) (grid_view_id : String) :
    Except String (Option (List Int)) × SapGui :=
  (match __get_object st grid_view_id with
   | Except.error e => Except.error e
   | Except.ok gv => get_selected_rows_from_string gv.SelectedRows, st)

/-- The run-time argument of `set_selected_gridview_rows`, declared
`list[int] | str` in the source. -/
inductive RowIndexesArg where
  | str (s : String)
  | list (l : List Int)

/-- Models the Python expression `isinstance(x, list[int])` (SapGui.py line
788): `isinstance` with a parameterized generic as its second argument
raises `TypeError: isinstance() argument 2 cannot be a parameterized
generic` for every first argument. -/
def isinstance_list_int (_ : RowIndexesArg) : Except String Bool :=
  Except.error "TypeError: isinstance() argument 2 cannot be a parameterized generic"

/-- `set_selected_gridview_rows` (SapGui.py lines 777-792).  The `str`
branch assigns `selected_rows`, then the second dispatch
`isinstance(row_indexes, list[int])` is evaluated unconditionally and
raises, so control never reaches the grid lookup or the `SelectedRows`
call; the `Except.ok` branch below is dead code kept for the translation of
the remainder. -/
def set_selected_gridview_rows (st : SapGui) (grid_view_id : String)
    (row_indexes : RowIndexesArg) : Except String Unit × SapGui :=
  match isinstance_list_int row_indexes with
  | Except.error e => (Except.error e, st)
  | Except.ok _ =>
    match __get_object st grid_view_id with
    | Except.error e => (Except.error e, st)
    | Except.ok _ => (Except.ok (), st)

/-! Specification-side definitions (written from the words of the claims, to
be compared with the code-side definitions above). -/

/-- Row-major enumeration of all cell addresses of an `R × C` grid: all of
row 0 first, then row 1, and so on. -/
def rowMajorCells (rows cols : Nat) : List (Nat × Nat) :=
  (List.range rows).flatMap (fun r => (List.range cols).map (fun c => (r, c)))

/-- Spec side of C1: the row-major list of the cell addresses whose cell
value equals the searched value. -/
def specCellMatches (gv : Control) (v : String) : List (Nat × Nat) :=
  (rowMajorCells gv.RowCount gv.ColumnCount).filter
    (fun p => gv.GetCellValue p.1 (gv.ColumnOrder.getD p.2 "") == v)

/-- Strict row-major order on cell addresses. -/
def rmLt (p q : Nat × Nat) : Prop :=
  p.1 < q.1 ∨ (p.1 = q.1 ∧ p.2 < q.2)

/-! Concrete fixtures used by the witness theorems. -/

/-- A concrete 2x2 grid control: columns `A`, `B` (in that order), the cell
at row 0 / column name `B` holds `x`, every other cell holds `y`; no rows
selected. -/
def sampleGrid : Control :=
  { Text := ""
    MessageType := ""
    TypeName := "GuiShell"
    RowCount := 2
    ColumnCount := 2
    ColumnOrder := ["A", "B"]
    GetCellValue := fun r c => if r == 0 && c == "B" then "x" else "y"
    GetColumnTitles := fun c => [c ++ " title"]
    SelectedRows := "" }

/-- A concrete status bar carrying an error message. -/
def sampleSbar : Control :=
  { Text := "err"
    MessageType := "E"
    TypeName := "GuiStatusbar"
    RowCount := 0
    ColumnCount := 0
    ColumnOrder := []
    GetCellValue := fun _ _ => ""
    GetColumnTitles := fun _ => []
    SelectedRows := "" }

/-- A concrete grid whose `SelectedRows` string is `1,3`. -/
def sampleGridSel : Control :=
  { sampleGrid with SelectedRows := "1,3" }

/-- A concrete session: `grid` and `grid2` are grid controls, `wnd[0]/sbar`
is the status bar, every other id raises a not-found exception. -/
def sampleSession : Session :=
  Session.mk (fun fid =>
    if fid == "grid" then Except.ok sampleGrid
    else if fid == "grid2" then Except.ok sampleGridSel
    else if fid == "wnd[0]/sbar" then Except.ok sampleSbar
    else Except.error ("The control could not be found by id " ++ fid))

/-- A concrete facade state over `sampleSession`. -/
def sampleState : SapGui :=
  { active_connection := 0
    active_session := sampleSession
    active_window := none
    active_object := none
    active_gridview := none }

/-! Helper lemmas about the object lookup. -/

theorem getObject_ok (st : SapGui) (field_id : String) (c : Control)
    (h : st.active_session.findById field_id = Except.ok c) :
    __get_object st field_id = Except.ok c := by
  simp [__get_object, __is_object__, h]

theorem getObject_error (st : SapGui) (field_id : String) (e : String)
    (h : st.active_session.findById field_id = Except.error e) :
    __get_object st field_id =
      Except.error ("Cannot find the field: " ++ field_id ++ ".") := by
  simp [__get_object, __is_object__, h]

/-- C2: the claim says translating the name of column `i` back through
`__get_gridview_column_index__` yields `i` whenever the column names are
pairwise distinct and `i < ColumnOrder.Count`.  On the grid with
`ColumnOrder = [A, B]` and `i = 1` the code returns `None` instead of `1`:
its loop body is an unconditional `return`, so the loop ends during its
first iteration and only column 0 can ever be reported.  The sibling loops
`get_current_gridview_column_index` (lines 713-716) and
`convert_gridview_column_index_to_name` (lines 834-839) return inside a
conditional, showing the intended scan. -/
theorem c2_column_roundtrip_failing_input :
    sampleGrid.ColumnOrder = ["A", "B"] ∧
    __get_gridview_column_name__ sampleGrid 1 = "B" ∧
    __get_gridview_column_index__ sampleGrid (__get_gridview_column_name__ sampleGrid 1) =
      none := by
  exact ⟨rfl, rfl, rfl⟩

/-- C9 counterexample: the claim says string arguments reach the grid's
SelectedRows call, but on the concrete state `sampleState`, whose id `grid`
resolves to a grid, the string argument `1` raises the isinstance TypeError
instead of reaching the grid. -/
theorem c9_string_argument_also_raises :
    (set_selected_gridview_rows sampleState "grid" (RowIndexesArg.str "1")).1 =
      Except.error "TypeError: isinstance() argument 2 cannot be a parameterized generic" :=
  rfl

/-- C9 (amended): every call of `set_selected_gridview_rows` — list and
string arguments alike — raises the TypeError produced by evaluating
`isinstance(row_indexes, list[int])`, before the grid is looked up or its
SelectedRows call is reached, and leaves the facade state unchanged. -/
theorem c9_every_call_raises_typeerror (st : SapGui) (grid_view_id : String)
    (row_indexes : RowIndexesArg) :
    set_selected_gridview_rows st grid_view_id row_indexes =
      (Except.error "TypeError: isinstance() argument 2 cannot be a parameterized generic",
        st) :=
  rfl

/-- C8: the read-only accessors `count_gridview_rows`,
`count_gridview_columns`, `get_text`, `get_object_type`,
`get_status_bar_message` and `get_gridview_cell_address_by_cell_value`
return the facade state unchanged, and of the state-assigning window
operation `set_active_window` only the `active_window` field is assigned:
`active_connection`, `active_session`, `active_object` and
`active_gridview` keep their values. -/
theorem c8_readonly_getters_frame (st : SapGui) (fid gid v : String) (w i : Nat) :
    (count_gridview_rows st gid).2 = st ∧
    (count_gridview_columns st gid).2 = st ∧
    (get_text st fid).2 = st ∧
    (get_object_type st fid).2 = st ∧
    (get_status_bar_message st w).2 = st ∧
    (get_gridview_cell_address_by_cell_value st gid v).2 = st ∧
    (set_active_window st i).2.active_connection = st.active_connection ∧
    (set_active_window st i).2.active_session = st.active_session ∧
    (set_active_window st i).2.active_object = st.active_object ∧
    (set_active_window st i).2.active_gridview = st.active_gridview := by
  refine ⟨rfl, rfl, rfl, rfl, rfl, rfl, ?_, ?_, ?_, ?_⟩
  all_goals
    unfold set_active_window
    cases st.active_session.findById ("wnd[" ++ toString i ++ "]") <;> rfl

/-- C6: `__get_object` raises exactly the generic message
`Cannot find the field: {field_id}.` precisely when `findById` raises, and
every accessor routed through it (`get_object`, `get_object_type`,
`get_text`, `set_text`, `select`, `press_button`) fails with that message
exactly when `findById` fails, and otherwise delegates once to the found
control. -/
theorem c6_accessors_error_iff_findById_fails (st : SapGui) (field_id t : String) :
    ((∃ e, __get_object st field_id = Except.error e) ↔
      (∃ e, st.active_session.findById field_id = Except.error e)) ∧
    (∀ e, __get_object st field_id = Except.error e →
      e = "Cannot find the field: " ++ field_id ++ ".") ∧
    (∀ c, st.active_session.findById field_id = Except.ok c →
      __get_object st field_id = Except.ok c ∧
      get_object st field_id = (Except.ok c, st) ∧
      get_object_type st field_id = (Except.ok c.TypeName, st) ∧
      get_text st field_id = (Except.ok c.Text, st) ∧
      set_text st field_id t = (Except.ok (), st) ∧
      select st field_id = (Except.ok (), st) ∧
      press_button st field_id = (Except.ok (), st)) ∧
    (∀ e, st.active_session.findById field_id = Except.error e →
      get_object st field_id =
        (Except.error ("Cannot find the field: " ++ field_id ++ "."), st) ∧
      get_object_type st field_id =
        (Except.error ("Cannot find the field: " ++ field_id ++ "."), st) ∧
      get_text st field_id =
        (Except.error ("Cannot find the field: " ++ field_id ++ "."), st) ∧
      set_text st field_id t =
        (Except.error ("Cannot find the field: " ++ field_id ++ "."), st) ∧
      select st field_id =
        (Except.error ("Cannot find the field: " ++ field_id ++ "."), st) ∧
      press_button st field_id =
        (Except.error ("Cannot find the field: " ++ field_id ++ "."), st)) := by
  cases hf : st.active_session.findById field_id with
  | ok c =>
    have hobj := getObject_ok st field_id c hf
    refine ⟨?_, ?_, ?_, ?_⟩
    · simp [hobj, hf]
    · intro e he
      rw [hobj] at he
      cases he
    · intro c' hc'
      simp only [Except.ok.injEq] at hc'
      subst hc'
      exact ⟨hobj, by simp [get_object, hobj], by simp [get_object_type, hobj],
        by simp [get_text, hobj], by simp [set_text, hobj], by simp [select, hobj],
        by simp [press_button, hobj]⟩
    · intro e he
      simp at he
  | error e0 =>
    have hobj := getObject_error st field_id e0 hf
    refine ⟨?_, ?_, ?_, ?_⟩
    · simp [hobj, hf]
    · intro e he
      rw [hobj] at he
      injection he with h
      exact h.symm
    · intro c hc
      simp at hc
    · intro e he
      exact ⟨by simp [get_object, hobj], by simp [get_object_type, hobj],
        by simp [get_text, hobj], by simp [set_text, hobj], by simp [select, hobj],
        by simp [press_button, hobj]⟩

/-- C6 witness: on the concrete state the id `grid` resolves, so `get_text`
delegates to the found control; the id `nope` does not resolve, so the
generic message is raised. -/
theorem c6_witness :
    get_text sampleState "grid" = (Except.ok "", sampleState) ∧
    get_text sampleState "nope" =
      (Except.error "Cannot find the field: nope.", sampleState) := by
  constructor
  · exact ((c6_accessors_error_iff_findById_fails sampleState "grid" "t").2.2.1
      sampleGrid rfl).2.2.2.1
  · exact ((c6_accessors_error_iff_findById_fails sampleState "nope" "t").2.2.2
      _ rfl).2.2.1

/-- C7: `check_if_object_exists` returns `True` when `findById` succeeds;
when `findById` raises it returns `False` exactly when the exception text
contains `The control could not be found by id` and re-raises otherwise;
the facade state is unchanged in every case. -/
theorem c7_check_if_object_exists (st : SapGui) (field_id : String) :
    (check_if_object_exists st field_id).2 = st ∧
    (∀ c, st.active_session.findById field_id = Except.ok c →
      (check_if_object_exists st field_id).1 = Except.ok true) ∧
    (∀ ex, st.active_session.findById field_id = Except.error ex →
      (check_if_object_exists st field_id).1 =
        if strContains ex "The control could not be found by id" then
          Except.ok false
        else
          Except.error ex) := by
  refine ⟨rfl, ?_, ?_⟩
  · intro c hc
    simp [check_if_object_exists, hc]
  · intro ex hex
    simp [check_if_object_exists, hex]

/-- C7 witness: on the concrete state, `grid` exists, and the unknown id
`nada` raises a not-found exception whose text contains the magic phrase,
so the call returns `False`. -/
theorem c7_witness :
    (check_if_object_exists sampleState "grid").1 = Except.ok true ∧
    (check_if_object_exists sampleState "nada").1 = Except.ok false := by
  constructor
  · exact (c7_check_if_object_exists sampleState "grid").2.1 sampleGrid rfl
  · have h := (c7_check_if_object_exists sampleState "nada").2.2 _ rfl
    rw [h]
    rfl

/-- C4: `get_status_bar_message w` returns the two-field record
`StatusBar(text, type)` built from the `Text` and `MessageType` properties
of the control at `wnd[w]/sbar`, and returns the facade state unchanged. -/
theorem c4_status_bar_message (st : SapGui) (w : Nat) :
    (get_status_bar_message st w).2 = st ∧
    (∀ sb, st.active_session.findById ("wnd[" ++ toString w ++ "]/sbar") =
        Except.ok sb →
      (get_status_bar_message st w).1 =
        Except.ok (StatusBar.mk sb.Text sb.MessageType)) := by
  refine ⟨rfl, ?_⟩
  intro sb hsb
  simp [get_status_bar_message, getObject_ok st _ sb hsb]

/-- C4 witness: on the concrete state window 0 has the status bar
`sampleSbar`, and the call returns its text and message type. -/
theorem c4_witness :
    (get_status_bar_message sampleState 0).1 = Except.ok (StatusBar.mk "err" "E") :=
  (c4_status_bar_message sampleState 0).2 sampleSbar rfl

/-- C5: after the delegated call, `run_transaction` (and the login check of
`open_new_session`) raises exactly when the status-bar message type is `E`,
with the re-wrapped message `{type} : {text}`, and returns normally
(`open_new_session` returning `True`) otherwise. -/
theorem c5_status_type_error_check (stAfter : SapGui) (sb : Control)
    (h : stAfter.active_session.findById ("wnd[" ++ toString (0 : Nat) ++ "]/sbar") =
      Except.ok sb) :
    ((∃ e, (run_transaction stAfter).1 = Except.error e) ↔ sb.MessageType = "E") ∧
    (sb.MessageType = "E" →
      (run_transaction stAfter).1 =
        Except.error (sb.MessageType ++ " : " ++ sb.Text)) ∧
    (sb.MessageType ≠ "E" → (run_transaction stAfter).1 = Except.ok ()) ∧
    ((∃ e, (open_new_session_login_check stAfter).1 = Except.error e) ↔
      sb.MessageType = "E") ∧
    (sb.MessageType = "E" →
      (open_new_session_login_check stAfter).1 =
        Except.error (sb.MessageType ++ " : " ++ sb.Text)) ∧
    (sb.MessageType ≠ "E" →
      (open_new_session_login_check stAfter).1 = Except.ok true) := by
  have hsb : (get_status_bar_message stAfter 0).1 =
      Except.ok (StatusBar.mk sb.Text sb.MessageType) := by
    simp [get_status_bar_message, getObject_ok stAfter _ sb h]
  by_cases he : sb.MessageType = "E"
  · simp [run_transaction, open_new_session_login_check, hsb, he]
  · simp [run_transaction, open_new_session_login_check, hsb, he]

/-- C5 witness: on the concrete state the status bar holds message type `E`
and text `err`, and `run_transaction` raises `E : err`. -/
theorem c5_witness :
    (run_transaction sampleState).1 = Except.error "E : err" :=
  (c5_status_type_error_check sampleState sampleSbar rfl).2.1 rfl

/-! Helper lemmas for the row-major scan (C1). -/

theorem filterMap_if_eq_map_filter {α β : Type} (p : α → Bool) (f : α → β)
    (l : List α) :
    (l.filterMap fun a => if p a then some (f a) else none) =
      (l.filter p).map f := by
  induction l with
  | nil => rfl
  | cons a t ih =>
    cases hpa : p a <;>
      simp [List.filterMap_cons, List.filter_cons, hpa, ih]

theorem scan_eq_specCellMatches (gv : Control) (v : String) :
    __get_gridview_cell_address_by_value__ gv v = specCellMatches gv v := by
  unfold __get_gridview_cell_address_by_value__ specCellMatches rowMajorCells
  rw [List.filter_flatMap]
  congr 1
  funext r
  rw [filterMap_if_eq_map_filter (fun c => v == gv.GetCellValue r (gv.ColumnOrder.getD c ""))
    (fun c => (r, c)), List.filter_map]
  congr 1
  congr 1
  funext c
  simp only [Function.comp]
  exact Bool.beq_comm

theorem mem_rowMajorCells {R C : Nat} {p : Nat × Nat} :
    p ∈ rowMajorCells R C ↔ p.1 < R ∧ p.2 < C := by
  obtain ⟨a, b⟩ := p
  simp only [rowMajorCells, List.mem_flatMap, List.mem_map, List.mem_range]
  constructor
  · rintro ⟨r, hr, c, hc, hp⟩
    cases hp
    exact ⟨hr, hc⟩
  · rintro ⟨ha, hb⟩
    exact ⟨a, ha, b, hb, rfl⟩

theorem mem_specCellMatches {gv : Control} {v : String} {p : Nat × Nat} :
    p ∈ specCellMatches gv v ↔
      p.1 < gv.RowCount ∧ p.2 < gv.ColumnCount ∧
        gv.GetCellValue p.1 (gv.ColumnOrder.getD p.2 "") = v := by
  simp only [specCellMatches, List.mem_filter, mem_rowMajorCells, beq_iff_eq, and_assoc]

theorem rowMajorCells_succ (R C : Nat) :
    rowMajorCells (R + 1) C =
      rowMajorCells R C ++ (List.range C).map (fun c => (R, c)) := by
  simp [rowMajorCells, List.range_succ]

theorem pairwise_rmLt_rowMajorCells (R C : Nat) :
    (rowMajorCells R C).Pairwise rmLt := by
  induction R with
  | zero => simp [rowMajorCells]
  | succ n ih =>
    rw [rowMajorCells_succ, List.pairwise_append]
    refine ⟨ih, ?_, ?_⟩
    · rw [List.pairwise_map]
      refine (List.pairwise_lt_range C).imp ?_
      intro a b hab
      exact Or.inr ⟨rfl, hab⟩
    · intro a ha b hb
      have h1 : a.1 < n := (mem_rowMajorCells.mp ha).1
      obtain ⟨c, _, rfl⟩ := List.mem_map.mp hb
      exact Or.inl h1

theorem pairwise_rmLt_specCellMatches (gv : Control) (v : String) :
    (specCellMatches gv v).Pairwise rmLt :=
  List.Pairwise.sublist (List.filter_sublist _)
    (pairwise_rmLt_rowMajorCells gv.RowCount gv.ColumnCount)

theorem specCellMatches_eq_nil_iff (gv : Control) (v : String) :
    specCellMatches gv v = [] ↔
      ∀ r c, r < gv.RowCount → c < gv.ColumnCount →
        gv.GetCellValue r (gv.ColumnOrder.getD c "") ≠ v := by
  rw [List.eq_nil_iff_forall_not_mem]
  constructor
  · intro hn r c hr hc hv
    exact hn (r, c) (mem_specCellMatches.mpr ⟨hr, hc, hv⟩)
  · rintro hn ⟨r, c⟩ hp
    obtain ⟨hr, hc, hv⟩ := mem_specCellMatches.mp hp
    exact hn r c hr hc hv

/-- C1: with the grid resolved, `get_gridview_cell_address_by_cell_value`
raises `The GridView row not found for the value: {v}` exactly when no cell
in range holds the value, and otherwise returns exactly the row-major list
of the `(row_index, column_index)` pairs with `row_index < RowCount`,
`column_index < ColumnCount` and the cell at
`(row_index, ColumnOrder[column_index])` equal to the value; the returned
list is characterised by membership and is strictly increasing in row-major
order, and the facade state is unchanged. -/
theorem c1_cell_search_row_major (st : SapGui) (grid_view_id cell_value : String)
    (gv : Control)
    (h : st.active_session.findById grid_view_id = Except.ok gv) :
    (get_gridview_cell_address_by_cell_value st grid_view_id cell_value).2 = st ∧
    ((get_gridview_cell_address_by_cell_value st grid_view_id cell_value).1 =
        Except.error ("The GridView row not found for the value: " ++ cell_value) ↔
      ∀ r c, r < gv.RowCount → c < gv.ColumnCount →
        gv.GetCellValue r (gv.ColumnOrder.getD c "") ≠ cell_value) ∧
    (specCellMatches gv cell_value ≠ [] →
      (get_gridview_cell_address_by_cell_value st grid_view_id cell_value).1 =
        Except.ok (specCellMatches gv cell_value)) ∧
    (∀ p : Nat × Nat, p ∈ specCellMatches gv cell_value ↔
      p.1 < gv.RowCount ∧ p.2 < gv.ColumnCount ∧
        gv.GetCellValue p.1 (gv.ColumnOrder.getD p.2 "") = cell_value) ∧
    (specCellMatches gv cell_value).Pairwise rmLt := by
  have hobj := getObject_ok st grid_view_id gv h
  have hres : (get_gridview_cell_address_by_cell_value st grid_view_id cell_value).1 =
      if (specCellMatches gv cell_value).length = 0 then
        Except.error ("The GridView row not found for the value: " ++ cell_value)
      else
        Except.ok (specCellMatches gv cell_value) := by
    simp only [get_gridview_cell_address_by_cell_value, hobj,
      scan_eq_specCellMatches]
  refine ⟨rfl, ?_, ?_, fun p => mem_specCellMatches,
    pairwise_rmLt_specCellMatches gv cell_value⟩
  · rw [hres, ← specCellMatches_eq_nil_iff, ← List.length_eq_zero]
    by_cases hlen : (specCellMatches gv cell_value).length = 0
    · simp [hlen]
    · simp [hlen]
  · intro hne
    rw [hres, if_neg (by simpa [List.length_eq_zero] using hne)]

/-- C1 witness: on the concrete 2x2 grid the value `x` sits only in row 0,
column index 1, and the search returns exactly that address. -/
theorem c1_witness :
    (get_gridview_cell_address_by_cell_value sampleState "grid" "x").1 =
      Except.ok [(0, 1)] := by
  have h := (c1_cell_search_row_major sampleState "grid" "x" sampleGrid rfl).2.2.1
    (by decide)
  rw [h]
  rfl

/-- Helper for C3: indexing the body of the grid extraction. -/
theorem body_getD (gv : Control) (r : Nat) (hr : r < gv.RowCount) :
    (__get_gridview_body__ gv).getD r [] =
      (List.range gv.ColumnCount).map (fun c =>
        gv.GetCellValue r (gv.ColumnOrder.getD c "")) := by
  unfold __get_gridview_body__ __get_gridview_column_name__
  rw [List.getD_eq_getElem?_getD, List.getElem?_map, List.getElem?_range hr]
  rfl

/-- C3: the bulk-extraction views agree: `gridview_to_array` returns the
`columns` list of `gridview_to_dict` as its head and the `data` list as its
tail; `columns` is the list of first column titles in ColumnOrder order, and
`data` has RowCount rows of ColumnCount values, row `r` column `c` holding
the cell at `(r, ColumnOrder[c])`. -/
theorem c3_array_agrees_with_dict (st : SapGui) (grid_view_id : String)
    (gv : Control)
    (h : st.active_session.findById grid_view_id = Except.ok gv) :
    (∀ d, (gridview_to_dict st grid_view_id).1 = Except.ok d →
      (gridview_to_array st grid_view_id).1 = Except.ok (d.columns :: d.data) ∧
      d.columns = gv.ColumnOrder.map (fun n => (gv.GetColumnTitles n).getD 0 "") ∧
      d.data.length = gv.RowCount ∧
      (∀ r, r < gv.RowCount → (d.data.getD r []).length = gv.ColumnCount) ∧
      (∀ r c, r < gv.RowCount → c < gv.ColumnCount →
        (d.data.getD r []).getD c "" =
          gv.GetCellValue r (gv.ColumnOrder.getD c ""))) ∧
    (∃ d, (gridview_to_dict st grid_view_id).1 = Except.ok d) := by
  have hobj := getObject_ok st grid_view_id gv h
  have hdict : (gridview_to_dict st grid_view_id).1 =
      Except.ok (GridDict.mk (__get_gridview_headers__ gv) (__get_gridview_body__ gv)) := by
    simp [gridview_to_dict, hobj]
  refine ⟨?_, ⟨_, hdict⟩⟩
  intro d hd
  rw [hdict] at hd
  simp only [Except.ok.injEq] at hd
  subst hd
  refine ⟨by simp [gridview_to_array, hobj], rfl, by simp [__get_gridview_body__], ?_, ?_⟩
  · intro r hr
    rw [body_getD gv r hr]
    simp
  · intro r c hr hc
    rw [body_getD gv r hr, List.getD_eq_getElem?_getD, List.getElem?_map,
      List.getElem?_range hc]
    rfl

/-- C3 witness: on the concrete 2x2 grid the array view is the dict's
columns followed by the dict's data rows. -/
theorem c3_witness :
    (gridview_to_array sampleState "grid").1 =
      Except.ok (["A title", "B title"] :: [["y", "x"], ["y", "y"]]) :=
  (((c3_array_agrees_with_dict sampleState "grid" sampleGrid rfl).1
    (GridDict.mk ["A title", "B title"] [["y", "x"], ["y", "y"]]) rfl).1)

/-- Helper for C10: a successfully processed token has no dash and parses
as an integer. -/
theorem processToken_ok {row : String} {is : List Int}
    (h : processToken row = Except.ok is) :
    pyContains row '-' = false ∧ ∃ i, pyInt row = Except.ok i := by
  unfold processToken at h
  cases hdash : pyContains row '-' with
  | false =>
    rw [hdash] at h
    simp only [Bool.false_eq_true, if_false] at h
    cases hpi : pyInt row with
    | ok i => exact ⟨rfl, i, rfl⟩
    | error e =>
      rw [hpi] at h
      cases h
  | true =>
    rw [hdash] at h
    simp at h

/-- Helper for C10: the token loop raises if any token contains a dash. -/
theorem collectRows_error_of_dash (rows : List String) (acc : List Int)
    (h : ∃ row ∈ rows, pyContains row '-' = true) :
    ∃ e, collectRows rows acc = Except.error e := by
  induction rows generalizing acc with
  | nil => simp at h
  | cons row rest ih =>
    obtain ⟨r, hr, hc⟩ := h
    rcases List.mem_cons.mp hr with hhd | hmem
    · subst hhd
      refine ⟨"TypeError: str object cannot be interpreted as an integer", ?_⟩
      simp [collectRows, processToken, hc]
    · cases hp : processToken row with
      | error e => exact ⟨e, by simp [collectRows, hp]⟩
      | ok is =>
        obtain ⟨e, he⟩ := ih (acc ++ is) ⟨r, hmem, hc⟩
        exact ⟨e, by simp [collectRows, hp, he]⟩

/-- Helper for C10: when the token loop succeeds, every token was a plain
integer literal without a dash. -/
theorem collectRows_ok_tokens (rows : List String) (acc l : List Int)
    (h : collectRows rows acc = Except.ok l) :
    ∀ row ∈ rows, pyContains row '-' = false ∧ ∃ i, pyInt row = Except.ok i := by
  induction rows generalizing acc with
  | nil =>
    intro row hrow
    simp at hrow
  | cons row rest ih =>
    intro r hr
    rcases List.mem_cons.mp hr with hhd | hmem
    · subst hhd
      cases hp : processToken r with
      | error e =>
        rw [collectRows, hp] at h
        cases h
      | ok is => exact processToken_ok hp
    · cases hp : processToken row with
      | error e =>
        rw [collectRows, hp] at h
        cases h
      | ok is =>
        rw [collectRows, hp] at h
        exact ih (acc ++ is) h r hmem

/-- C10: with the grid resolved, `get_selected_gridview_rows` returns `None`
(not an empty list) when the grid's SelectedRows string is empty; it raises
when any comma-separated token contains a dash (range tokens included); a
list is produced only when every token is a plain integer literal; and the
facade state is unchanged. -/
theorem c10_selected_rows_parsing (st : SapGui) (grid_view_id : String)
    (gv : Control)
    (h : st.active_session.findById grid_view_id = Except.ok gv) :
    (get_selected_gridview_rows st grid_view_id).2 = st ∧
    (gv.SelectedRows = "" →
      (get_selected_gridview_rows st grid_view_id).1 = Except.ok none) ∧
    ((∃ row ∈ pySplitComma gv.SelectedRows, pyContains row '-' = true) →
      ∃ e, (get_selected_gridview_rows st grid_view_id).1 = Except.error e) ∧
    (∀ l, (get_selected_gridview_rows st grid_view_id).1 = Except.ok (some l) →
      ∀ row ∈ pySplitComma gv.SelectedRows,
        pyContains row '-' = false ∧ ∃ i, pyInt row = Except.ok i) := by
  have hobj := getObject_ok st grid_view_id gv h
  have hres : (get_selected_gridview_rows st grid_view_id).1 =
      get_selected_rows_from_string gv.SelectedRows := by
    simp [get_selected_gridview_rows, hobj]
  refine ⟨rfl, ?_, ?_, ?_⟩
  · intro hemp
    rw [hres]
    simp [get_selected_rows_from_string, hemp]
  · intro hdash
    by_cases hemp : gv.SelectedRows = ""
    · exfalso
      rw [hemp] at hdash
      obtain ⟨row, hrow, hc⟩ := hdash
      have hrow' : row = "" := by
        have hsplit : pySplitComma "" = [""] := rfl
        rw [hsplit] at hrow
        simpa using hrow
      subst hrow'
      cases hc
    · obtain ⟨e, he⟩ :=
        collectRows_error_of_dash (pySplitComma gv.SelectedRows) [] hdash
      refine ⟨e, ?_⟩
      rw [hres]
      simp [get_selected_rows_from_string, hemp, he]
  · intro l hl row hrow
    rw [hres] at hl
    by_cases hemp : gv.SelectedRows = ""
    · rw [get_selected_rows_from_string, if_pos (by simp [hemp])] at hl
      cases hl
    · rw [get_selected_rows_from_string, if_neg (by simp [hemp])] at hl
      cases hcr : collectRows (pySplitComma gv.SelectedRows) [] with
      | error e =>
        rw [hcr] at hl
        cases hl
      | ok l0 =>
        exact collectRows_ok_tokens (pySplitComma gv.SelectedRows) [] l0 hcr row hrow

/-- C10 witness: on the concrete grids, the empty SelectedRows string gives
`None` and the string `1,3` parses to the index list `[1, 3]`. -/
theorem c10_witness :
    (get_selected_gridview_rows sampleState "grid").1 = Except.ok none ∧
    (get_selected_gridview_rows sampleState "grid2").1 = Except.ok (some [1, 3]) := by
  refine ⟨(c10_selected_rows_parsing sampleState "grid" sampleGrid rfl).2.1 rfl, ?_⟩
  rfl
